import Mathlib

/-!
# SubprocessT (subprocess.h / subprocess.cxx)

A shallow embedding of `SubprocessT`: its constructor (both `#ifdef` branches),
`Terminate` and `GetResult`.  The operating system is an explicit `World`
(descriptor table plus the log of calls made so far); whatever the operating
system answers to a call (`fork`, `execv`, `waitpid`, `kill`, the Win32 calls)
is an argument of the embedded function.
-/

namespace Subprocess

/-! ## Operating-system model -/

/-- What a descriptor refers to: an end of a pipe, or some other open file. -/
inductive FileObj where
  | pipeRead (p : Nat)
  | pipeWrite (p : Nat)
  | file (k : Nat)
  deriving DecidableEq, Repr

/-- The descriptor table of a process: `none` is a closed descriptor. -/
abbrev FdTable := Nat → Option FileObj

/-- The `PROCESS_INFORMATION` fields the code uses. -/
structure PROCESS_INFORMATION where
  hProcess : Nat
  hThread : Nat
  deriving DecidableEq, Repr

/-- The `STARTUPINFOW` fields the code sets; `none` is the zero left by `memset`. -/
structure STARTUPINFOW where
  hStdInput : Option Nat
  hStdOutput : Option Nat
  hStdError : Option Nat
  useStdHandles : Bool
  deriving DecidableEq, Repr

/-- One call made by the code, with its arguments (and its answer where the
code depends on it). -/
inductive Event where
  | cout (text : String)
  | fflushAll
  | pipe (fds : Option (Nat × Nat))
  | fork (pid : Int)
  | close (fd : Nat)
  | dup2 (oldfd newfd : Nat)
  | execv (path : String) (argv : List (Option String))
  | kill (pid : Int) (sig : Nat)
  | waitpid (pid : Int)
  | CreatePipe (handles : Option (Nat × Nat))
  | SetHandleInformation (h : Nat)
  | CreateProcessW (app : String) (commandLine : String) (inheritHandles : Bool)
      (startup : STARTUPINFOW)
  | CloseHandle (h : Nat)
  | open_osfhandle (h : Nat)
  | TerminateProcess (h : Nat) (code : Nat)
  | WaitForSingleObject (h : Nat) (timeout : Nat)
  | GetExitCodeProcess (h : Nat)
  deriving DecidableEq, Repr

/-- The calling process as the operating system sees it. -/
structure World where
  fds : FdTable
  /-- Descriptors are numbers below `limit` (RLIMIT_NOFILE). -/
  limit : Nat
  /-- Identity the kernel gives to the next pipe it creates. -/
  nextPipe : Nat
  /-- Calls made so far, oldest first. -/
  trace : List Event

/-- Append a call to the log. -/
def World.emit (w : World) (e : Event) : World :=
  { w with trace := w.trace ++ [e] }

/-- The lowest descriptor number that is not open, if any is left. -/
def lowestFree (fds : FdTable) (limit : Nat) : Option Nat :=
  (List.range limit).find? fun fd => (fds fd).isNone

/-- Descriptor table with `fd` set to `v`. -/
def setFd (fds : FdTable) (fd : Nat) (v : Option FileObj) : FdTable :=
  fun n => if n = fd then v else fds n

/-- `pipe(2)`: a new pipe whose read and write ends take the two lowest closed
descriptors; `none` (the call returns -1) when two are not available. -/
def sysPipe (w : World) : Option (Nat × Nat) × World :=
  match lowestFree w.fds w.limit with
  | none => (none, w.emit (.pipe none))
  | some r =>
    let fds1 := setFd w.fds r (some (.pipeRead w.nextPipe))
    match lowestFree fds1 w.limit with
    | none => (none, w.emit (.pipe none))
    | some wr =>
      (some (r, wr),
        { w with
          fds := setFd fds1 wr (some (.pipeWrite w.nextPipe))
          nextPipe := w.nextPipe + 1
          trace := w.trace ++ [.pipe (some (r, wr))] })

/-- `close(2)`; closing a closed descriptor changes nothing. -/
def sysClose (w : World) (fd : Nat) : World :=
  { w with fds := setFd w.fds fd none, trace := w.trace ++ [.close fd] }

/-- `dup2(2)`: `newfd` is made to refer to what `oldfd` refers to; nothing
changes when `oldfd` is closed or `newfd` is out of range. -/
def sysDup2 (w : World) (oldfd newfd : Nat) : World :=
  match w.fds oldfd with
  | none => w.emit (.dup2 oldfd newfd)
  | some o =>
    if newfd < w.limit then
      { w with fds := setFd w.fds newfd (some o), trace := w.trace ++ [.dup2 oldfd newfd] }
    else w.emit (.dup2 oldfd newfd)

/-! ## The data model (subprocess.h) -/

/-- The two build variants selected by `#ifdef _WIN32`. -/
inductive Platform where
  | posix
  | win32
  deriving DecidableEq, Repr

/-- `ChildID` (fork/exec build) or `ChildStatus` (Win32 build). -/
inductive ProcessIdentity where
  | ChildID (pid : Int)
  | ChildStatus (info : PROCESS_INFORMATION)
  deriving DecidableEq, Repr

/-- `struct SubprocessT`.  `In` and `Out` hold the native descriptor assigned to
the stream (`none` until `assign`). -/
structure SubprocessT where
  In : Option Int
  Out : Option Int
  Child : ProcessIdentity
  /-- `OptionalT<int> Result`. -/
  Result : Option Int
  deriving DecidableEq, Repr

/-- Modelled from the spec: `Filesystem::PathT` belongs to ren-cxx-filesystem and
is not part of this repository; the spec only says it is a validated executable
path.  It is known here by what `Render()` returns. -/
structure PathT where
  Render : String
  deriving DecidableEq, Repr

/-- Modelled from the spec: `OptionalT<int>` belongs to ren-cxx-basics and is not
part of this repository; the spec describes `cachedExitStatus` as an optional
integer, absent until resolved.  `!Result` is absence, and converting a present
value to `int` yields the held integer. -/
def OptionalT.toInt (o : Option Int) : Int := o.getD 0

/-- The failures the code throws (`throw SystemErrorT() << ...`), one per site. -/
inductive SystemErrorT where
  | createPipes
  | createProcess
  | parentReadPipe
  | parentReadPipeUninheritable
  | parentWritePipe
  | parentWritePipeUninheritable
  | spawnChild (commandLine : String)
  | parentReadDescriptor
  | parentWriteDescriptor
  | lostControl
  deriving DecidableEq, Repr

/-- What the operating system answers to the calls of the constructor, in the
process that is being followed. -/
structure Answers where
  /-- Return value of `fork()`: -1, 0 (this is the child) or the child's pid. -/
  fork : Int
  /-- Whether `execv` replaces the image; when it does not, it returns -1. -/
  execvReplaces : Bool
  /-- First `CreatePipe`: read handle and write handle. -/
  CreatePipe1 : Option (Nat × Nat)
  SetHandleInformation1 : Bool
  /-- Second `CreatePipe`: read handle and write handle. -/
  CreatePipe2 : Option (Nat × Nat)
  SetHandleInformation2 : Bool
  CreateProcessW : Option PROCESS_INFORMATION
  open_osfhandle1 : Int
  open_osfhandle2 : Int

/-- How a run of the constructor ends in the process that is being followed. -/
inductive Outcome where
  /-- A `SystemErrorT` leaves the constructor. -/
  | threw (e : SystemErrorT) (w : World)
  /-- The constructor returns to its caller. -/
  | returned (self : SubprocessT) (w : World)
  /-- The process image was replaced by `execv`; the constructor never returns. -/
  | imageReplaced (path : String) (argv : List (Option String)) (w : World)
  /-- The process ends itself (`_exit`); no line of the constructor produces this. -/
  | terminated (code : Int) (w : World)

/-! ## The constructor (subprocess.cxx, lines 16-142) -/

/-- Lines 22-24: the line written to `std::cout`. -/
def runningLine (Executable : PathT) (Arguments : List String) : String :=
  Arguments.foldl (fun s Argument => s ++ "\"" ++ Argument ++ "\" ")
    ("Running \"" ++ Executable.Render ++ "\" with arguments: ") ++ "\n"

/-- The C string behind `s.c_str()`, as a reader of the pointer (such as `execv`)
sees it: the characters of `s` before its first NUL character. -/
def c_str (s : String) : String :=
  ⟨s.data.takeWhile fun c => c != Char.ofNat 0⟩

/-- Lines 126-130: `ArgPointers`; `none` is `nullptr`, and `some t` is a pointer
`s.c_str()` behind which the C string `t` is read. -/
def ArgPointers (ExecutableString : String) (Arguments : List String) :
    List (Option String) :=
  (Arguments.foldl (fun v Argument => v ++ [some (c_str Argument)])
      [some (c_str ExecutableString)])
    ++ [none]

/-- Lines 118-123: what the child does to its descriptors.  `FromChild` and
`ToChild` are (read end, write end). -/
def childPlumbing (FromChild ToChild : Nat × Nat) (w : World) : World :=
  let w := sysClose w ToChild.2
  let w := sysDup2 w ToChild.1 0
  let w := sysClose w ToChild.1
  let w := sysClose w FromChild.1
  let w := sysDup2 w FromChild.2 1
  sysClose w FromChild.2

/-- Lines 107-140: the fork/exec branch. -/
def ctorPosix (Executable : PathT) (Arguments : List String) (a : Answers)
    (w : World) : Outcome :=
  match sysPipe w with
  | (none, w) => .threw .createPipes w
  | (some FromChild, w) =>
    match sysPipe w with
    | (none, w) => .threw .createPipes w
    | (some ToChild, w) =>
      let ChildID := a.fork
      let w := w.emit (.fork ChildID)
      if ChildID = -1 then .threw .createProcess w
      else if ChildID = 0 then
        -- Child side
        let w := childPlumbing FromChild ToChild w
        let ExecutableString := Executable.Render
        let argv := ArgPointers ExecutableString Arguments
        let w := w.emit (.execv (c_str ExecutableString) argv)
        if a.execvReplaces then .imageReplaced (c_str ExecutableString) argv w
        else
          -- execv returned -1: control leaves the if and reaches line 142
          .returned { In := none, Out := none, Child := .ChildID ChildID, Result := none } w
      else
        -- Parent side
        let w := sysClose w ToChild.1
        let In : Option Int := some ToChild.2
        let w := sysClose w FromChild.2
        let Out : Option Int := some FromChild.1
        .returned { In := In, Out := Out, Child := .ChildID ChildID, Result := none } w

/-- Lines 65-67: `ArgumentConcatenation`. -/
def ArgumentConcatenation (Executable : PathT) (Arguments : List String) : String :=
  Arguments.foldl (fun s Argument => s ++ " \"" ++ Argument ++ "\"")
    ("\"" ++ Executable.Render ++ "\"")

/-- Lines 29-105: the Win32 branch. -/
def ctorWin32 (Verbose : Bool) (Executable : PathT) (Arguments : List String)
    (a : Answers) (w : World) : Outcome :=
  let w := w.emit (.CreatePipe a.CreatePipe1)
  match a.CreatePipe1 with
  | none => .threw .parentReadPipe w
  | some (ParentInHandle, ChildOutHandle) =>
    let w := w.emit (.SetHandleInformation ParentInHandle)
    if !a.SetHandleInformation1 then .threw .parentReadPipeUninheritable w
    else
      let w := w.emit (.CreatePipe a.CreatePipe2)
      match a.CreatePipe2 with
      | none => .threw .parentWritePipe w
      | some (ChildInHandle, ParentOutHandle) =>
        let w := w.emit (.SetHandleInformation ParentOutHandle)
        if !a.SetHandleInformation2 then .threw .parentWritePipeUninheritable w
        else
          let ChildStartupInformation : STARTUPINFOW :=
            { hStdOutput := some ChildOutHandle
              hStdInput := some ChildInHandle
              hStdError := if Verbose then some ChildOutHandle else none
              useStdHandles := true }
          let commandLine := ArgumentConcatenation Executable Arguments
          let w := w.emit
            (.CreateProcessW Executable.Render commandLine true ChildStartupInformation)
          match a.CreateProcessW with
          | none => .threw (.spawnChild commandLine) w
          | some ChildStatus =>
            let w := w.emit (.CloseHandle ChildStatus.hThread)
            let w := w.emit (.CloseHandle ChildOutHandle)
            let w := w.emit (.CloseHandle ChildInHandle)
            let w := w.emit (.open_osfhandle ParentInHandle)
            let ParentIn := a.open_osfhandle1
            if ParentIn = -1 then .threw .parentReadDescriptor w
            else
              let w := w.emit (.open_osfhandle ParentOutHandle)
              let ParentOut := a.open_osfhandle2
              if ParentOut = -1 then .threw .parentWriteDescriptor w
              else
                .returned
                  { In := some ParentOut, Out := some ParentIn
                    Child := .ChildStatus ChildStatus, Result := none } w

/-- Lines 21-27: the log line, then `fflush(nullptr)`. -/
def announce (Executable : PathT) (Arguments : List String) (w : World) : World :=
  let w := w.emit (.cout (runningLine Executable Arguments))
  w.emit .fflushAll

/-- `SubprocessT::SubprocessT`: the log line, the flush, then the branch of the
build variant.  `Verbose` is the global the Win32 branch reads. -/
def SubprocessT.ctor (platform : Platform) (Verbose : Bool) (Executable : PathT)
    (Arguments : List String) (a : Answers) (w : World) : Outcome :=
  let w := announce Executable Arguments w
  match platform with
  | .win32 => ctorWin32 Verbose Executable Arguments a w
  | .posix => ctorPosix Executable Arguments a w

/-! ## Terminate (lines 151-158) -/

/-- `SIGTERM`. -/
def SIGTERM : Nat := 15

set_option linter.unusedVariables false in
/-- `SubprocessT::Terminate`.  `osReturn` is what `kill` / `TerminateProcess`
returns; the code does not look at it. -/
def SubprocessT.Terminate (self : SubprocessT) (osReturn : Int) (w : World) :
    SubprocessT × World :=
  match self.Child with
  | .ChildStatus ChildStatus => (self, w.emit (.TerminateProcess ChildStatus.hProcess 1))
  | .ChildID ChildID => (self, w.emit (.kill ChildID SIGTERM))

/-! ## GetResult (lines 160-182) -/

/-- The `<sys/wait.h>` macros the code uses on the raw status. -/
structure WaitMacros where
  WIFEXITED : Int → Bool
  WEXITSTATUS : Int → Int

/-- The macros as the C library defines them: `WIFEXITED(s)` is
`((s) & 0x7f) == 0`, and `WEXITSTATUS(s)` is `((s) & 0xff00) >> 8`. -/
def libc : WaitMacros where
  WIFEXITED := fun s => s % 128 == 0
  WEXITSTATUS := fun s => (s / 256) % 256

/-- How a child can end, as `waitpid` reports it. -/
inductive ChildEnd where
  /-- Normal exit with the given code. -/
  | exited (code : Nat)
  /-- Killed by a signal, with or without a core dump. -/
  | signaled (sig : Nat) (core : Bool)
  /-- Stopped by a signal. -/
  | stopped (sig : Nat)
  deriving DecidableEq, Repr

/-- The raw status the kernel stores for each way of ending. -/
def wstatus : ChildEnd → Int
  | .exited code => ((code % 256 : Nat) : Int) * 256
  | .signaled sig core => ((sig % 128 : Nat) : Int) + (if core then 128 else 0)
  | .stopped sig => ((sig % 256 : Nat) : Int) * 256 + 127

/-- What the operating system answers to the calls of one `GetResult`. -/
structure WaitAnswers where
  /-- Status `waitpid` stores in `RawStatus`; `none` when it fails and stores nothing. -/
  waitpid : Option Int
  /-- Exit code `GetExitCodeProcess` stores (a DWORD); `none` when it fails. -/
  GetExitCodeProcess : Option Nat

/-- How one call of `GetResult` ends. -/
inductive ResultOutcome where
  | threw (e : SystemErrorT) (self : SubprocessT) (w : World)
  | returned (value : Int) (self : SubprocessT) (w : World)

/-- Conversion of a `DWORD` to `int`. -/
def dwordToInt (d : Nat) : Int :=
  if d % 2 ^ 32 < 2 ^ 31 then ((d % 2 ^ 32 : Nat) : Int) else ((d % 2 ^ 32 : Nat) : Int) - 2 ^ 32

/-- Line 179: the line written to `std::cout`. -/
def finishedLine (Result : Option Int) : String :=
  "Execution finished with code " ++ toString (OptionalT.toInt Result) ++ ".\n"

/-- `SubprocessT::GetResult`. -/
def SubprocessT.GetResult (m : WaitMacros) (self : SubprocessT) (a : WaitAnswers)
    (w : World) : ResultOutcome :=
  if self.Result.isNone then
    match self.Child with
    | .ChildStatus ChildStatus =>
      let w := w.emit (.WaitForSingleObject ChildStatus.hProcess 0)
      let w := w.emit (.GetExitCodeProcess ChildStatus.hProcess)
      match a.GetExitCodeProcess with
      | none => .threw .lostControl self w
      | some ReturnCode =>
        let self := { self with Result := some (dwordToInt ReturnCode) }
        let w := w.emit (.cout (finishedLine self.Result))
        .returned (OptionalT.toInt self.Result) self w
    | .ChildID ChildID =>
      let w := w.emit (.waitpid ChildID)
      let RawStatus : Int := a.waitpid.getD 1
      if !m.WIFEXITED RawStatus then
        .returned 1 self w -- Some error, pretend like command failed
      else
        let self := { self with Result := some (m.WEXITSTATUS RawStatus) }
        let w := w.emit (.cout (finishedLine self.Result))
        .returned (OptionalT.toInt self.Result) self w
  else .returned (OptionalT.toInt self.Result) self w

/-- The value a call returned (`none` when it threw). -/
def ResultOutcome.value : ResultOutcome → Option Int
  | .threw _ _ _ => none
  | .returned v _ _ => some v

/-- The object after the call. -/
def ResultOutcome.self : ResultOutcome → SubprocessT
  | .threw _ s _ => s
  | .returned _ s _ => s

/-- The world after the call. -/
def ResultOutcome.world : ResultOutcome → World
  | .threw _ _ w => w
  | .returned _ _ w => w

/-! ## Sequences of calls on one object -/

/-- One call on a `SubprocessT`, with what the operating system answers to it. -/
inductive Call where
  | GetResult (a : WaitAnswers)
  | Terminate (osReturn : Int)

/-- Run calls one after the other; a call that throws leaves the object and the
world as they were when it threw, and the caller goes on. -/
def runCalls (m : WaitMacros) : List Call → SubprocessT → World → SubprocessT × World
  | [], self, w => (self, w)
  | .GetResult a :: rest, self, w =>
    let r := SubprocessT.GetResult m self a w
    runCalls m rest r.self r.world
  | .Terminate osReturn :: rest, self, w =>
    let r := SubprocessT.Terminate self osReturn w
    runCalls m rest r.1 r.2

/-- Whether a call is an operating-system wait primitive. -/
def Event.isWait : Event → Bool
  | .waitpid _ => true
  | .WaitForSingleObject _ _ => true
  | _ => false

/-- Number of wait-primitive calls in a log. -/
def waitCount (t : List Event) : Nat := (t.filter Event.isWait).length

/-- Whether a call creates a pipe or a process. -/
def Event.isCreation : Event → Bool
  | .pipe _ => true
  | .fork _ => true
  | .CreatePipe _ => true
  | .CreateProcessW _ _ _ _ => true
  | _ => false

/-- The world in which a run of the constructor ends. -/
def Outcome.world : Outcome → World
  | .threw _ w => w
  | .returned _ w => w
  | .imageReplaced _ _ w => w
  | .terminated _ w => w

/-- A process with standard input, output and error open and nothing else. -/
def stdWorld : World where
  fds := fun fd => if fd < 3 then some (.file fd) else none
  limit := 64
  nextPipe := 0
  trace := []

/-- Answers for the child side of a successful `fork`. -/
def childAnswers (execvReplaces : Bool) : Answers where
  fork := 0
  execvReplaces := execvReplaces
  CreatePipe1 := none
  SetHandleInformation1 := false
  CreatePipe2 := none
  SetHandleInformation2 := false
  CreateProcessW := none
  open_osfhandle1 := -1
  open_osfhandle2 := -1

/-- Answers for the parent side of a successful `fork` that made child `pid`. -/
def parentAnswers (pid : Int) : Answers :=
  { childAnswers false with fork := pid }

/-- A path used in examples. -/
def shPath : PathT := ⟨"/bin/sh"⟩

/-- The arguments of a child that runs `exit 7`. -/
def exit7 : List String := ["-c", "exit 7"]

/-- The world of the examples after the first `pipe` call of the constructor. -/
def stdWorld1 : World := (sysPipe (announce shPath exit7 stdWorld)).2

/-- The world of the examples after the second `pipe` call of the constructor. -/
def stdWorld2 : World := (sysPipe stdWorld1).2

/-- The parent of the examples after it has constructed a first object (child
pid 42): that object's `Out` is descriptor 3 and its `In` is descriptor 6. -/
def afterFirst : World :=
  (SubprocessT.ctor .posix false shPath exit7 (parentAnswers 42) stdWorld).world

/-- An argument with a NUL character inside: the characters a, NUL, b. -/
def nulArgument : String := ⟨['a', Char.ofNat 0, 'b']⟩

/-- Descriptors 0 and 1 are open and no other descriptor is. -/
def OnlyChannelsOpen (w : World) : Prop :=
  ∀ fd, (w.fds fd).isSome = true ↔ (fd = 0 ∨ fd = 1)

/-- Answers of a Win32 run in which every call succeeds. -/
def win32Answers : Answers where
  fork := -1
  execvReplaces := false
  CreatePipe1 := some (100, 104)
  SetHandleInformation1 := true
  CreatePipe2 := some (108, 112)
  SetHandleInformation2 := true
  CreateProcessW := some ⟨200, 204⟩
  open_osfhandle1 := 3
  open_osfhandle2 := 4

/-- A constructed object of the fork/exec build whose child has pid 42. -/
def sample : SubprocessT :=
  { In := some 6, Out := some 3, Child := .ChildID 42, Result := none }

/-! ## Facts about the operating-system model -/

theorem lowestFree_closed {fds : FdTable} {limit fd : Nat}
    (h : lowestFree fds limit = some fd) : fds fd = none := by
  have := List.find?_some h
  simpa using this

theorem lowestFree_lt {fds : FdTable} {limit fd : Nat}
    (h : lowestFree fds limit = some fd) : fd < limit := by
  have := List.mem_of_find?_eq_some h
  simpa using this

/-- What a successful `pipe` did: two distinct descriptors that were closed now
refer to the two ends of a new pipe, and nothing else changed. -/
theorem sysPipe_some {w w1 : World} {p : Nat × Nat} (h : sysPipe w = (some p, w1)) :
    w.fds p.1 = none ∧ w.fds p.2 = none ∧ p.1 ≠ p.2 ∧ p.1 < w.limit ∧ p.2 < w.limit ∧
    w1.fds = setFd (setFd w.fds p.1 (some (.pipeRead w.nextPipe))) p.2
      (some (.pipeWrite w.nextPipe)) ∧
    w1.limit = w.limit ∧ w1.nextPipe = w.nextPipe + 1 ∧
    w1.trace = w.trace ++ [.pipe (some p)] := by
  unfold sysPipe at h
  split at h
  · simp at h
  · rename_i r hr
    dsimp only at h
    split at h
    · simp at h
    · rename_i wr hwr
      simp only [Prod.mk.injEq, Option.some.injEq] at h
      obtain ⟨hp, hw⟩ := h
      subst hp
      subst hw
      have h1 := lowestFree_closed hr
      have h2 := lowestFree_closed hwr
      have hne : r ≠ wr := by
        intro e
        subst e
        simp [setFd] at h2
      have h3 : w.fds wr = none := by
        have : wr ≠ r := fun e => hne e.symm
        simpa [setFd, this] using h2
      exact ⟨h1, h3, hne, lowestFree_lt hr, lowestFree_lt hwr, rfl, rfl, rfl, rfl⟩

theorem announce_fds (E : PathT) (A : List String) (w : World) :
    (announce E A w).fds = w.fds ∧ (announce E A w).limit = w.limit ∧
    (announce E A w).nextPipe = w.nextPipe := ⟨rfl, rfl, rfl⟩

/-- The descriptor table the child plumbing leaves, when the two ends it
duplicates are open and none of the four descriptors is 0 or 1. -/
theorem childPlumbing_fds (w : World) (F T : Nat × Nat) (a b : FileObj)
    (hTR : w.fds T.1 = some a) (hFW : w.fds F.2 = some b) (hlim : 2 ≤ w.limit)
    (h2 : 2 ≤ F.1 ∧ 2 ≤ F.2 ∧ 2 ≤ T.1 ∧ 2 ≤ T.2)
    (hd : T.1 ≠ T.2 ∧ F.2 ≠ T.1 ∧ F.2 ≠ T.2 ∧ F.2 ≠ F.1) (n : Nat) :
    (childPlumbing F T w).fds n =
      if n = 0 then some a else if n = 1 then some b
      else if n = F.1 ∨ n = F.2 ∨ n = T.1 ∨ n = T.2 then none else w.fds n := by
  obtain ⟨h21, h22, h23, h24⟩ := h2
  obtain ⟨d1, d2, d3, d4⟩ := hd
  have e1 : (sysClose w T.2).fds T.1 = some a := by simp [sysClose, setFd, d1, hTR]
  have l1 : (sysClose w T.2).limit = w.limit := rfl
  have s2 : (sysDup2 (sysClose w T.2) T.1 0).fds =
      setFd (setFd w.fds T.2 none) 0 (some a) := by
    unfold sysDup2
    rw [e1]
    have : 0 < w.limit := by omega
    simp [l1, this, sysClose]
  have l2 : (sysDup2 (sysClose w T.2) T.1 0).limit = w.limit := by
    unfold sysDup2
    rw [e1]
    have : 0 < w.limit := by omega
    simp [l1, this]
  let w4 := sysClose (sysClose (sysDup2 (sysClose w T.2) T.1 0) T.1) F.1
  have f4 : w4.fds = setFd (setFd (setFd (setFd w.fds T.2 none) 0 (some a)) T.1 none) F.1 none := by
    show setFd (setFd (sysDup2 (sysClose w T.2) T.1 0).fds T.1 none) F.1 none = _
    rw [s2]
  have l4 : w4.limit = w.limit := l2
  have e4 : w4.fds F.2 = some b := by
    have c0 : F.2 ≠ 0 := by omega
    simp [f4, setFd, d2, d3, d4, c0, hFW]
  have s5 : (sysDup2 w4 F.2 1).fds = setFd w4.fds 1 (some b) := by
    unfold sysDup2
    rw [e4]
    have : 1 < w.limit := by omega
    simp [l4, this]
  have hall : (childPlumbing F T w).fds = setFd (setFd w4.fds 1 (some b)) F.2 none := by
    show (sysClose (sysDup2 w4 F.2 1) F.2).fds = _
    simp [sysClose, s5]
  rw [hall, f4]
  simp only [setFd]
  split_ifs <;> first | rfl | (exfalso; omega)

/-- The descriptor table after the two `pipe` calls of the constructor. -/
theorem two_pipes {w w1 w2 : World} {F T : Nat × Nat}
    (hF : sysPipe w = (some F, w1)) (hT : sysPipe w1 = (some T, w2)) :
    (F.1 ≠ F.2 ∧ T.1 ≠ T.2 ∧ T.1 ≠ F.1 ∧ T.1 ≠ F.2 ∧ T.2 ≠ F.1 ∧ T.2 ≠ F.2) ∧
    (w.fds F.1 = none ∧ w.fds F.2 = none ∧ w.fds T.1 = none ∧ w.fds T.2 = none) ∧
    w2.limit = w.limit ∧ F.1 < w.limit ∧
    ∀ n, w2.fds n =
      if n = T.2 then some (.pipeWrite (w.nextPipe + 1))
      else if n = T.1 then some (.pipeRead (w.nextPipe + 1))
      else if n = F.2 then some (.pipeWrite w.nextPipe)
      else if n = F.1 then some (.pipeRead w.nextPipe)
      else w.fds n := by
  obtain ⟨a1, a2, a3, a4, _, a6, a7, a8, _⟩ := sysPipe_some hF
  obtain ⟨b1, b2, b3, _, _, b6, b7, _, _⟩ := sysPipe_some hT
  rw [a6] at b1 b2
  have c1 : T.1 ≠ F.2 := by
    intro e
    rw [e] at b1
    simp [setFd] at b1
  have c2 : T.2 ≠ F.2 := by
    intro e
    rw [e] at b2
    simp [setFd] at b2
  have c3 : T.1 ≠ F.1 := by
    intro e
    rw [e] at b1
    simp [setFd, a3] at b1
  have c4 : T.2 ≠ F.1 := by
    intro e
    rw [e] at b2
    simp [setFd, a3] at b2
  have d1 : w.fds T.1 = none := by simpa [setFd, c1, c3] using b1
  have d2 : w.fds T.2 = none := by simpa [setFd, c2, c4] using b2
  refine ⟨⟨a3, b3, c3, c1, c4, c2⟩, ⟨a1, a2, d1, d2⟩, by rw [b7, a7], a4, ?_⟩
  intro n
  rw [b6, a6, a8]
  simp only [setFd]

/-- The constructor of the fork/exec build, once both pipes exist. -/
theorem ctor_posix_eq (Verbose : Bool) (E : PathT) (A : List String) (a : Answers)
    (w0 w1 w2 : World) (F T : Nat × Nat)
    (hF : sysPipe (announce E A w0) = (some F, w1)) (hT : sysPipe w1 = (some T, w2)) :
    SubprocessT.ctor .posix Verbose E A a w0 =
      if a.fork = -1 then .threw .createProcess (w2.emit (.fork a.fork))
      else if a.fork = 0 then
        if a.execvReplaces then
          .imageReplaced (c_str E.Render) (ArgPointers E.Render A)
            ((childPlumbing F T (w2.emit (.fork a.fork))).emit
              (.execv (c_str E.Render) (ArgPointers E.Render A)))
        else
          .returned { In := none, Out := none, Child := .ChildID a.fork, Result := none }
            ((childPlumbing F T (w2.emit (.fork a.fork))).emit
              (.execv (c_str E.Render) (ArgPointers E.Render A)))
      else
        .returned
          { In := some (T.2 : Int), Out := some (F.1 : Int), Child := .ChildID a.fork,
            Result := none }
          (sysClose (sysClose (w2.emit (.fork a.fork)) T.1) F.2) := by
  simp only [SubprocessT.ctor, ctorPosix, hF, hT]

/-- The world of the child when it calls `execv`. -/
theorem ctor_posix_child_world (Verbose : Bool) (E : PathT) (A : List String) (a : Answers)
    (w0 w1 w2 : World) (F T : Nat × Nat)
    (hF : sysPipe (announce E A w0) = (some F, w1)) (hT : sysPipe w1 = (some T, w2))
    (hfork : a.fork = 0) :
    (SubprocessT.ctor .posix Verbose E A a w0).world =
      (childPlumbing F T (w2.emit (.fork a.fork))).emit
        (.execv (c_str E.Render) (ArgPointers E.Render A)) := by
  rw [ctor_posix_eq Verbose E A a w0 w1 w2 F T hF hT]
  rw [if_neg (by omega), if_pos hfork]
  cases a.execvReplaces <;> rfl

/-- The descriptor table of the child when it calls `execv`. -/
theorem ctor_posix_child_fds (Verbose : Bool) (E : PathT) (A : List String) (a : Answers)
    (w0 w1 w2 : World) (F T : Nat × Nat)
    (hF : sysPipe (announce E A w0) = (some F, w1)) (hT : sysPipe w1 = (some T, w2))
    (hfork : a.fork = 0)
    (h2 : 2 ≤ F.1 ∧ 2 ≤ F.2 ∧ 2 ≤ T.1 ∧ 2 ≤ T.2) (n : Nat) :
    (SubprocessT.ctor .posix Verbose E A a w0).world.fds n =
      if n = 0 then some (.pipeRead (w0.nextPipe + 1))
      else if n = 1 then some (.pipeWrite w0.nextPipe)
      else if n = F.1 ∨ n = F.2 ∨ n = T.1 ∨ n = T.2 then none else w0.fds n := by
  rw [ctor_posix_child_world Verbose E A a w0 w1 w2 F T hF hT hfork]
  obtain ⟨⟨p1, p2, p3, p4, p5, p6⟩, _, hl, hlt, hfds⟩ := two_pipes hF hT
  show (childPlumbing F T (w2.emit (.fork a.fork))).fds n = _
  have hTR : (w2.emit (.fork a.fork)).fds T.1 = some (.pipeRead (w0.nextPipe + 1)) := by
    show w2.fds T.1 = _
    rw [hfds]
    simp [p2]
    rfl
  have hFW : (w2.emit (.fork a.fork)).fds F.2 = some (.pipeWrite w0.nextPipe) := by
    show w2.fds F.2 = _
    rw [hfds]
    simp [p4.symm, p6.symm]
    rfl
  have hlim : 2 ≤ (w2.emit (.fork a.fork)).limit := by
    show 2 ≤ w2.limit
    rw [hl]
    have : F.1 < w0.limit := hlt
    omega
  rw [childPlumbing_fds _ F T _ _ hTR hFW hlim h2 ⟨p2, p4.symm, p6.symm, p1.symm⟩ n]
  by_cases n0 : n = 0
  · simp [n0]
  · by_cases n1 : n = 1
    · simp [n1]
    · simp only [n0, n1, if_false]
      split
      · rfl
      · rename_i hn
        simp only [not_or] at hn
        show w2.fds n = _
        rw [hfds]
        simp [hn.1, hn.2.1, hn.2.2.1, hn.2.2.2]
        rfl

theorem sysPipe_trace {w w1 : World} {r : Option (Nat × Nat)} (h : sysPipe w = (r, w1)) :
    w1.trace = w.trace ++ [.pipe r] := by
  unfold sysPipe at h
  split at h
  · simp only [Prod.mk.injEq] at h
    obtain ⟨h1, h2⟩ := h
    subst h1
    subst h2
    rfl
  · dsimp only at h
    split at h
    · simp only [Prod.mk.injEq] at h
      obtain ⟨h1, h2⟩ := h
      subst h1
      subst h2
      rfl
    · simp only [Prod.mk.injEq] at h
      obtain ⟨h1, h2⟩ := h
      subst h1
      subst h2
      rfl

theorem sysDup2_trace (w : World) (o n : Nat) :
    (sysDup2 w o n).trace = w.trace ++ [.dup2 o n] := by
  unfold sysDup2
  split
  · rfl
  · split <;> rfl

theorem childPlumbing_trace (F T : Nat × Nat) (w : World) :
    (childPlumbing F T w).trace =
      w.trace ++ [.close T.2, .dup2 T.1 0, .close T.1, .close F.1, .dup2 F.2 1, .close F.2] := by
  simp [childPlumbing, sysClose, sysDup2_trace]

/-- The loop of lines 128-130 builds the path, then the arguments in order, then
the null pointer; each entry is read as a C string. -/
theorem ArgPointers_eq (e : String) (A : List String) :
    ArgPointers e A = some (c_str e) :: (A.map (fun a => some (c_str a)) ++ [none]) := by
  have key : ∀ (l : List String) (v : List (Option String)),
      l.foldl (fun v Argument => v ++ [some (c_str Argument)]) v
        = v ++ l.map (fun a => some (c_str a)) := by
    intro l
    induction l with
    | nil => intro v; simp
    | cons x xs ih => intro v; simp [ih]
  simp [ArgPointers, key]

/-- A string without a NUL character is its own C string. -/
theorem c_str_eq_self (s : String) (h : Char.ofNat 0 ∉ s.data) : c_str s = s := by
  have : s.data.takeWhile (fun c => c != Char.ofNat 0) = s.data := by
    rw [List.takeWhile_eq_self_iff]
    intro c hc
    simp only [bne_iff_ne, ne_eq]
    intro e
    exact h (e ▸ hc)
  show String.mk _ = s
  rw [this]

/-! ## The constructor: descriptors -/

/-- C7: in the fork/exec constructor, when both pipes and `fork` succeed and the
four pipe descriptors are neither 0 nor 1, the child calls `execv` with
descriptor 0 on the read end of the parent-to-child pipe, descriptor 1 on the
write end of the child-to-parent pipe and the four pipe descriptors closed; the
parent gets `In` on the write end of the parent-to-child pipe, `Out` on the read
end of the child-to-parent pipe, and has the two child-side ends closed. -/
theorem ctor_posix_plumbing (Verbose : Bool) (E : PathT) (A : List String) (a : Answers)
    (w0 w1 w2 : World) (FromChild ToChild : Nat × Nat)
    (hF : sysPipe (announce E A w0) = (some FromChild, w1))
    (hT : sysPipe w1 = (some ToChild, w2))
    (hfork : a.fork ≠ -1)
    (h2 : 2 ≤ FromChild.1 ∧ 2 ≤ FromChild.2 ∧ 2 ≤ ToChild.1 ∧ 2 ≤ ToChild.2) :
    w2.fds FromChild.1 = some (.pipeRead w0.nextPipe) ∧
    w2.fds FromChild.2 = some (.pipeWrite w0.nextPipe) ∧
    w2.fds ToChild.1 = some (.pipeRead (w0.nextPipe + 1)) ∧
    w2.fds ToChild.2 = some (.pipeWrite (w0.nextPipe + 1)) ∧
    (a.fork = 0 →
      (SubprocessT.ctor .posix Verbose E A a w0).world.fds 0
        = some (.pipeRead (w0.nextPipe + 1)) ∧
      (SubprocessT.ctor .posix Verbose E A a w0).world.fds 1
        = some (.pipeWrite w0.nextPipe) ∧
      (SubprocessT.ctor .posix Verbose E A a w0).world.fds FromChild.1 = none ∧
      (SubprocessT.ctor .posix Verbose E A a w0).world.fds FromChild.2 = none ∧
      (SubprocessT.ctor .posix Verbose E A a w0).world.fds ToChild.1 = none ∧
      (SubprocessT.ctor .posix Verbose E A a w0).world.fds ToChild.2 = none) ∧
    (a.fork ≠ 0 →
      ∃ self w, SubprocessT.ctor .posix Verbose E A a w0 = .returned self w ∧
        self.In = some (ToChild.2 : Int) ∧ self.Out = some (FromChild.1 : Int) ∧
        w.fds ToChild.2 = some (.pipeWrite (w0.nextPipe + 1)) ∧
        w.fds FromChild.1 = some (.pipeRead w0.nextPipe) ∧
        w.fds ToChild.1 = none ∧ w.fds FromChild.2 = none) := by
  obtain ⟨⟨p1, p2, p3, p4, p5, p6⟩, _, _, _, hfds⟩ := two_pipes hF hT
  have e1 : w2.fds FromChild.1 = some (.pipeRead w0.nextPipe) := by
    rw [hfds]
    simp [p5.symm, p3.symm, p1]
    rfl
  have e2 : w2.fds FromChild.2 = some (.pipeWrite w0.nextPipe) := by
    rw [hfds]
    simp [p6.symm, p4.symm]
    rfl
  have e3 : w2.fds ToChild.1 = some (.pipeRead (w0.nextPipe + 1)) := by
    rw [hfds]
    simp [p2]
    rfl
  have e4 : w2.fds ToChild.2 = some (.pipeWrite (w0.nextPipe + 1)) := by
    rw [hfds]
    simp
    rfl
  refine ⟨e1, e2, e3, e4, ?_, ?_⟩
  · intro h0
    have key := ctor_posix_child_fds Verbose E A a w0 w1 w2 FromChild ToChild hF hT h0 h2
    obtain ⟨q1, q2, q3, q4⟩ := h2
    refine ⟨?_, ?_, ?_, ?_, ?_, ?_⟩
    · rw [key]; simp
    · rw [key]; simp
    · rw [key]
      have a0 : FromChild.1 ≠ 0 := by omega
      have a1 : FromChild.1 ≠ 1 := by omega
      simp [a0, a1]
    · rw [key]
      have a0 : FromChild.2 ≠ 0 := by omega
      have a1 : FromChild.2 ≠ 1 := by omega
      simp [a0, a1]
    · rw [key]
      have a0 : ToChild.1 ≠ 0 := by omega
      have a1 : ToChild.1 ≠ 1 := by omega
      simp [a0, a1]
    · rw [key]
      have a0 : ToChild.2 ≠ 0 := by omega
      have a1 : ToChild.2 ≠ 1 := by omega
      simp [a0, a1]
  · intro h0
    rw [ctor_posix_eq Verbose E A a w0 w1 w2 FromChild ToChild hF hT, if_neg hfork, if_neg h0]
    refine ⟨_, _, rfl, rfl, rfl, ?_, ?_, ?_, ?_⟩
    · show setFd (setFd w2.fds ToChild.1 none) FromChild.2 none ToChild.2 = _
      simp [setFd, p6, p2.symm, e4]
    · show setFd (setFd w2.fds ToChild.1 none) FromChild.2 none FromChild.1 = _
      simp [setFd, p1, p3.symm, e1]
    · show setFd (setFd w2.fds ToChild.1 none) FromChild.2 none ToChild.1 = _
      simp [setFd]
    · show setFd (setFd w2.fds ToChild.1 none) FromChild.2 none FromChild.2 = _
      simp [setFd]

/-- C7 at a process with standard input, output and error open: the pipes take
descriptors 3, 4, 5 and 6; the child side and the parent side (child pid 42) are
both followed. -/
theorem ctor_posix_plumbing_witness :
    ((SubprocessT.ctor .posix false shPath exit7 (childAnswers true) stdWorld).world.fds 0
        = some (.pipeRead 1) ∧
      (SubprocessT.ctor .posix false shPath exit7 (childAnswers true) stdWorld).world.fds 1
        = some (.pipeWrite 0) ∧
      (SubprocessT.ctor .posix false shPath exit7 (childAnswers true) stdWorld).world.fds 3
        = none ∧
      (SubprocessT.ctor .posix false shPath exit7 (childAnswers true) stdWorld).world.fds 4
        = none ∧
      (SubprocessT.ctor .posix false shPath exit7 (childAnswers true) stdWorld).world.fds 5
        = none ∧
      (SubprocessT.ctor .posix false shPath exit7 (childAnswers true) stdWorld).world.fds 6
        = none) ∧
    stdWorld2.fds 5 = some (.pipeRead 1) ∧ stdWorld2.fds 4 = some (.pipeWrite 0) ∧
    ∃ self w, SubprocessT.ctor .posix false shPath exit7 (parentAnswers 42) stdWorld
        = .returned self w ∧
      self.In = some 6 ∧ self.Out = some 3 ∧
      w.fds 6 = some (.pipeWrite 1) ∧ w.fds 3 = some (.pipeRead 0) ∧
      w.fds 5 = none ∧ w.fds 4 = none :=
  have hc := ctor_posix_plumbing false shPath exit7 (childAnswers true) stdWorld stdWorld1
    stdWorld2 (3, 4) (5, 6) rfl rfl (by decide) (by decide)
  have hp := ctor_posix_plumbing false shPath exit7 (parentAnswers 42) stdWorld stdWorld1
    stdWorld2 (3, 4) (5, 6) rfl rfl (by decide) (by decide)
  ⟨hc.2.2.2.2.1 rfl, hp.2.2.1, hp.2.1, hp.2.2.2.2.2 (by decide)⟩

/-- C2 at its failing input: a parent with descriptors 0, 1 and 2 open constructs
a first object, whose `Out` is descriptor 3 (read end of pipe 0) and whose `In` is
descriptor 6 (write end of pipe 1), and then a second one.  When the child of the
second construction calls `execv`, its descriptors 0 and 1 are on the two new
pipes, and descriptors 3 and 6 are still open on the pipe ends of the first
object.  The Win32 branch makes its two parent-side handles uninheritable. -/
theorem ctor_posix_child_inherits_earlier_pipe_ends :
    (∃ w, SubprocessT.ctor .posix false shPath exit7 (parentAnswers 42) stdWorld
      = .returned { In := some 6, Out := some 3, Child := .ChildID 42, Result := none } w) ∧
    afterFirst.fds 3 = some (.pipeRead 0) ∧ afterFirst.fds 6 = some (.pipeWrite 1) ∧
    (SubprocessT.ctor .posix false shPath exit7 (childAnswers true) afterFirst).world.fds 0
      = some (.pipeRead 3) ∧
    (SubprocessT.ctor .posix false shPath exit7 (childAnswers true) afterFirst).world.fds 1
      = some (.pipeWrite 2) ∧
    (SubprocessT.ctor .posix false shPath exit7 (childAnswers true) afterFirst).world.fds 3
      = some (.pipeRead 0) ∧
    (SubprocessT.ctor .posix false shPath exit7 (childAnswers true) afterFirst).world.fds 6
      = some (.pipeWrite 1) ∧
    ¬ OnlyChannelsOpen
      (SubprocessT.ctor .posix false shPath exit7 (childAnswers true) afterFirst).world ∧
    Event.SetHandleInformation 100
      ∈ (SubprocessT.ctor .win32 false shPath exit7 win32Answers stdWorld).world.trace ∧
    Event.SetHandleInformation 112
      ∈ (SubprocessT.ctor .win32 false shPath exit7 win32Answers stdWorld).world.trace := by
  have h3 : (SubprocessT.ctor .posix false shPath exit7 (childAnswers true)
      afterFirst).world.fds 3 = some (.pipeRead 0) := by decide
  refine ⟨⟨_, rfl⟩, by decide, by decide, by decide, by decide, h3, by decide, ?_, ?_, ?_⟩
  · intro h
    have := (h 3).1 (by rw [h3]; rfl)
    omega
  · simp [SubprocessT.ctor, ctorWin32, win32Answers, World.emit, announce, stdWorld,
      Outcome.world]
  · simp [SubprocessT.ctor, ctorWin32, win32Answers, World.emit, announce, stdWorld,
      Outcome.world]

/-- C8 at its failing input: with verbose mode on, the child of the fork/exec
constructor calls `execv` with descriptor 1 on the write end of the
child-to-parent pipe but descriptor 2 still on the parent's standard error; the
fork/exec branch gives the same run whatever `Verbose` is, while the Win32
branch hands the child-to-parent write handle to the child as its standard
error. -/
theorem ctor_posix_verbose_stderr_not_redirected :
    (SubprocessT.ctor .posix true shPath exit7 (childAnswers true) stdWorld).world.fds 1
      = some (.pipeWrite 0) ∧
    (SubprocessT.ctor .posix true shPath exit7 (childAnswers true) stdWorld).world.fds 2
      = some (.file 2) ∧
    stdWorld.fds 2 = some (.file 2) ∧
    (∀ E A a w, SubprocessT.ctor .posix true E A a w = SubprocessT.ctor .posix false E A a w) ∧
    Event.CreateProcessW "/bin/sh" (ArgumentConcatenation shPath exit7) true
        { hStdInput := some 108, hStdOutput := some 104, hStdError := some 104,
          useStdHandles := true }
      ∈ (SubprocessT.ctor .win32 true shPath exit7 win32Answers stdWorld).world.trace := by
  refine ⟨by decide, by decide, by decide, fun _ _ _ _ => rfl, ?_⟩
  simp [SubprocessT.ctor, ctorWin32, win32Answers, World.emit, announce, stdWorld,
    Outcome.world, shPath]

/-! ## The constructor: control flow -/

/-- C1 at its failing input: in the child (fork answers 0), when `execv` on a path
that cannot be executed returns, the constructor returns to its caller with an
object whose streams were never assigned and whose `ChildID` is 0; the child does
not terminate. -/
theorem ctor_posix_exec_failure_returns :
    (∃ w, SubprocessT.ctor .posix false ⟨"/nonexistent"⟩ [] (childAnswers false) stdWorld
      = .returned { In := none, Out := none, Child := .ChildID 0, Result := none } w) ∧
    ∀ code w, SubprocessT.ctor .posix false ⟨"/nonexistent"⟩ [] (childAnswers false) stdWorld
      ≠ .terminated code w := by
  have h : ∃ w, SubprocessT.ctor .posix false ⟨"/nonexistent"⟩ [] (childAnswers false) stdWorld
      = .returned { In := none, Out := none, Child := .ChildID 0, Result := none } w :=
    ⟨_, rfl⟩
  refine ⟨h, ?_⟩
  obtain ⟨w, hw⟩ := h
  intro code w1 hc
  rw [hw] at hc
  cases hc

/-- C9, as stated, fails: with the one argument made of the characters a, NUL, b,
the entry of the argument vector that `execv` reads is the C string `a`, not the
argument. -/
theorem ctor_posix_execv_truncates_at_nul :
    (SubprocessT.ctor .posix false shPath [nulArgument] (childAnswers true)
        stdWorld).world.trace.getLast?
      = some (.execv "/bin/sh" [some "/bin/sh", some "a", none]) ∧
    (SubprocessT.ctor .posix false shPath [nulArgument] (childAnswers true)
        stdWorld).world.trace.getLast?
      ≠ some (.execv shPath.Render
          (some shPath.Render :: ([nulArgument].map some ++ [none]))) := by
  decide

/-- C9, amended: in the child of the fork/exec constructor, for every path and
argument list, `execv` is called on the C string of the rendered path with an
argument vector of n + 2 entries: the C string of the rendered path, the C
strings of the n arguments in their order (each argument up to its first NUL
character), and the null pointer; when `execv` succeeds this is the image and
vector that run; when neither the rendered path nor any argument holds a NUL
character the entries are the rendered path and the arguments themselves. -/
theorem ctor_posix_execv_arguments (Verbose : Bool) (E : PathT) (A : List String)
    (a : Answers) (w0 w1 w2 : World) (FromChild ToChild : Nat × Nat)
    (hF : sysPipe (announce E A w0) = (some FromChild, w1))
    (hT : sysPipe w1 = (some ToChild, w2))
    (hfork : a.fork = 0) :
    (some (c_str E.Render) :: (A.map (fun s => some (c_str s)) ++ [none])).length
      = A.length + 2 ∧
    (SubprocessT.ctor .posix Verbose E A a w0).world.trace.getLast?
      = some (.execv (c_str E.Render)
          (some (c_str E.Render) :: (A.map (fun s => some (c_str s)) ++ [none]))) ∧
    (a.execvReplaces = true →
      ∃ w, SubprocessT.ctor .posix Verbose E A a w0
        = .imageReplaced (c_str E.Render)
            (some (c_str E.Render) :: (A.map (fun s => some (c_str s)) ++ [none])) w) ∧
    (Char.ofNat 0 ∉ E.Render.data → (∀ s ∈ A, Char.ofNat 0 ∉ s.data) →
      (SubprocessT.ctor .posix Verbose E A a w0).world.trace.getLast?
        = some (.execv E.Render (some E.Render :: (A.map some ++ [none])))) := by
  have hlast : (SubprocessT.ctor .posix Verbose E A a w0).world.trace.getLast?
      = some (.execv (c_str E.Render)
          (some (c_str E.Render) :: (A.map (fun s => some (c_str s)) ++ [none]))) := by
    rw [ctor_posix_child_world Verbose E A a w0 w1 w2 FromChild ToChild hF hT hfork,
      ArgPointers_eq]
    simp [World.emit]
  refine ⟨by simp, hlast, ?_, ?_⟩
  · intro hx
    rw [ctor_posix_eq Verbose E A a w0 w1 w2 FromChild ToChild hF hT,
      if_neg (by omega), if_pos hfork, if_pos hx, ArgPointers_eq]
    exact ⟨_, rfl⟩
  · intro hE hA
    have hmap : A.map (fun s => some (c_str s)) = A.map some :=
      List.map_congr_left fun s hs => by rw [c_str_eq_self s (hA s hs)]
    rw [hlast, c_str_eq_self E.Render hE, hmap]

/-- C9 amended, for `/bin/sh -c "exit 7"`: four entries, no NUL character
anywhere, and `/bin/sh` is what runs. -/
theorem ctor_posix_execv_arguments_witness :
    (some (c_str shPath.Render) :: (exit7.map (fun s => some (c_str s)) ++ [none])).length
      = 4 ∧
    (∃ w, SubprocessT.ctor .posix false shPath exit7 (childAnswers true) stdWorld
      = .imageReplaced (c_str shPath.Render)
          (some (c_str shPath.Render) :: (exit7.map (fun s => some (c_str s)) ++ [none])) w) ∧
    (SubprocessT.ctor .posix false shPath exit7 (childAnswers true) stdWorld).world.trace.getLast?
      = some (.execv "/bin/sh" [some "/bin/sh", some "-c", some "exit 7", none]) :=
  have h := ctor_posix_execv_arguments false shPath exit7 (childAnswers true) stdWorld
    stdWorld1 stdWorld2 (3, 4) (5, 6) rfl rfl rfl
  ⟨h.1, h.2.2.1 rfl, h.2.2.2 (by decide) (by decide)⟩

/-- In a list of calls that starts with two calls that create nothing, whatever
precedes a creation call starts with those two calls. -/
theorem creation_after_first_two (c f : Event) (rest pre post : List Event) (e : Event)
    (hc : c.isCreation = false) (hf : f.isCreation = false)
    (h : c :: f :: rest = pre ++ e :: post) (he : e.isCreation = true) :
    ∃ mid, pre = c :: f :: mid := by
  cases pre with
  | nil =>
    simp only [List.nil_append, List.cons.injEq] at h
    rw [← h.1, hc] at he
    cases he
  | cons x xs =>
    cases xs with
    | nil =>
      simp only [List.cons_append, List.nil_append, List.cons.injEq] at h
      rw [← h.2.1, hf] at he
      cases he
    | cons y ys =>
      simp only [List.cons_append, List.cons.injEq] at h
      exact ⟨ys, by rw [← h.1, ← h.2.1]⟩

/-- C10: on every path of the constructor, in both build variants, the calls it
makes are the log line, then `fflush(nullptr)`, then the remaining calls, none of
which is log output; so whatever call of the constructor creates a pipe or a
process, the calls before it start with the log line followed by the flush. -/
theorem ctor_flushes_before_creation (platform : Platform) (Verbose : Bool) (E : PathT)
    (A : List String) (a : Answers) (w0 : World) :
    ∃ rest, (SubprocessT.ctor platform Verbose E A a w0).world.trace
        = w0.trace ++ (.cout (runningLine E A) :: .fflushAll :: rest) ∧
      (∀ e ∈ rest, ∀ text, e ≠ .cout text) ∧
      (∀ pre e post, .cout (runningLine E A) :: .fflushAll :: rest = pre ++ e :: post →
        e.isCreation = true →
        ∃ mid, pre = .cout (runningLine E A) :: .fflushAll :: mid) := by
  have hlast : ∀ rest : List Event, ∀ pre e post,
      .cout (runningLine E A) :: .fflushAll :: rest = pre ++ e :: post →
      e.isCreation = true → ∃ mid, pre = .cout (runningLine E A) :: .fflushAll :: mid :=
    fun rest pre e post h he => creation_after_first_two _ _ rest pre post e rfl rfl h he
  have h0 : (announce E A w0).trace = w0.trace ++ [.cout (runningLine E A), .fflushAll] := by
    simp [announce, World.emit]
  cases platform with
  | win32 =>
    simp only [SubprocessT.ctor, ctorWin32]
    rcases a.CreatePipe1 with _ | ⟨h1, h2⟩
    · apply Exists.intro
      refine ⟨?_, ?_, ?_⟩
      · simp [Outcome.world, World.emit, h0]
        rfl
      · simp
      · exact hlast _
    · cases a.SetHandleInformation1
      · apply Exists.intro
        refine ⟨?_, ?_, ?_⟩
        · simp [Outcome.world, World.emit, h0]
          rfl
        · simp
        · exact hlast _
      · rcases a.CreatePipe2 with _ | ⟨h3, h4⟩
        · apply Exists.intro
          refine ⟨?_, ?_, ?_⟩
          · simp [Outcome.world, World.emit, h0]
            rfl
          · simp
          · exact hlast _
        · cases a.SetHandleInformation2
          · apply Exists.intro
            refine ⟨?_, ?_, ?_⟩
            · simp [Outcome.world, World.emit, h0]
              rfl
            · simp
            · exact hlast _
          · rcases a.CreateProcessW with _ | st
            · apply Exists.intro
              refine ⟨?_, ?_, ?_⟩
              · simp [Outcome.world, World.emit, h0]
                rfl
              · simp
              · exact hlast _
            · by_cases c1 : a.open_osfhandle1 = -1
              · apply Exists.intro
                refine ⟨?_, ?_, ?_⟩
                · simp [Outcome.world, World.emit, h0, c1]
                  rfl
                · simp
                · exact hlast _
              · by_cases c2 : a.open_osfhandle2 = -1
                · apply Exists.intro
                  refine ⟨?_, ?_, ?_⟩
                  · simp [Outcome.world, World.emit, h0, c1, c2]
                    rfl
                  · simp
                  · exact hlast _
                · apply Exists.intro
                  refine ⟨?_, ?_, ?_⟩
                  · simp [Outcome.world, World.emit, h0, c1, c2]
                    rfl
                  · simp
                  · exact hlast _
  | posix =>
    simp only [SubprocessT.ctor, ctorPosix]
    rcases hp1 : sysPipe (announce E A w0) with ⟨r1, w1⟩
    have t1 := sysPipe_trace hp1
    rcases r1 with _ | F
    · apply Exists.intro
      refine ⟨?_, ?_, ?_⟩
      · simp [Outcome.world, t1, h0]
        rfl
      · simp
      · exact hlast _
    · rcases hp2 : sysPipe w1 with ⟨r2, w2⟩
      have t2 := sysPipe_trace hp2
      rcases r2 with _ | T <;> simp only [hp2]
      · apply Exists.intro
        refine ⟨?_, ?_, ?_⟩
        · simp [Outcome.world, t2, t1, h0]
          rfl
        · simp
        · exact hlast _
      · by_cases c1 : a.fork = -1
        · apply Exists.intro
          refine ⟨?_, ?_, ?_⟩
          · simp [Outcome.world, World.emit, t2, t1, h0, c1]
            rfl
          · simp
          · exact hlast _
        · by_cases c2 : a.fork = 0
          · cases hx : a.execvReplaces
            · apply Exists.intro
              refine ⟨?_, ?_, ?_⟩
              · simp [Outcome.world, World.emit, childPlumbing_trace, t2, t1, h0, c2]
                rfl
              · simp
              · exact hlast _
            · apply Exists.intro
              refine ⟨?_, ?_, ?_⟩
              · simp [Outcome.world, World.emit, childPlumbing_trace, t2, t1, h0, c2]
                rfl
              · simp
              · exact hlast _
          · apply Exists.intro
            refine ⟨?_, ?_, ?_⟩
            · simp [Outcome.world, World.emit, sysClose, t2, t1, h0, c1, c2]
              rfl
            · simp
            · exact hlast _

/-! ## Terminate -/

/-- C6: whatever the object's state and whatever the operating system's kill
call returns, `Terminate` returns with the object unchanged (`Result`, `In`,
`Out` and the process identity), makes exactly one call, which is the kill
request addressed to the stored process identity, makes no wait call and leaves
the descriptor table alone. -/
theorem Terminate_only_kills (self : SubprocessT) (osReturn : Int) (w : World) :
    (SubprocessT.Terminate self osReturn w).1 = self ∧
    (SubprocessT.Terminate self osReturn w).2.trace = w.trace ++
      [match self.Child with
        | .ChildID ChildID => Event.kill ChildID SIGTERM
        | .ChildStatus ChildStatus => Event.TerminateProcess ChildStatus.hProcess 1] ∧
    waitCount (SubprocessT.Terminate self osReturn w).2.trace = waitCount w.trace ∧
    (SubprocessT.Terminate self osReturn w).2.fds = w.fds := by
  unfold SubprocessT.Terminate
  cases self.Child <;> simp [World.emit, waitCount, Event.isWait]

/-! ## GetResult -/

/-- Once `Result` is present, `GetResult` returns it and does nothing else. -/
theorem GetResult_cached (m : WaitMacros) (self : SubprocessT) (a : WaitAnswers) (w : World)
    (v : Int) (h : self.Result = some v) :
    SubprocessT.GetResult m self a w = .returned v self w := by
  simp [SubprocessT.GetResult, h, OptionalT.toInt]

/-- `Terminate` leaves the object as it was and adds no wait call. -/
theorem Terminate_keeps (self : SubprocessT) (osReturn : Int) (w : World) :
    (SubprocessT.Terminate self osReturn w).1 = self ∧
    waitCount (SubprocessT.Terminate self osReturn w).2.trace = waitCount w.trace := by
  unfold SubprocessT.Terminate
  cases self.Child <;> simp [World.emit, waitCount, Event.isWait]

/-- Once `Result` is present, no sequence of calls changes it or waits. -/
theorem runCalls_cached (m : WaitMacros) (calls : List Call) (self : SubprocessT) (w : World)
    (v : Int) (h : self.Result = some v) :
    (runCalls m calls self w).1.Result = some v ∧
    waitCount (runCalls m calls self w).2.trace = waitCount w.trace := by
  induction calls generalizing self w with
  | nil => exact ⟨h, rfl⟩
  | cons c cs ih =>
    cases c with
    | GetResult a =>
      simp only [runCalls, GetResult_cached m self a w v h, ResultOutcome.self,
        ResultOutcome.world]
      exact ih self w h
    | Terminate r =>
      simp only [runCalls]
      have ht := Terminate_keeps self r w
      have h1 : (SubprocessT.Terminate self r w).1.Result = some v := by rw [ht.1]; exact h
      obtain ⟨i1, i2⟩ := ih (SubprocessT.Terminate self r w).1 (SubprocessT.Terminate self r w).2 h1
      exact ⟨i1, by rw [i2, ht.2]⟩

/-- C3: on the fork/exec build, the first `GetResult` (nothing cached yet) returns
`WEXITSTATUS` of the raw status when `WIFEXITED` holds of it and 1 otherwise; with
the C library's macros that is the exit code c for a child that exited normally
with code c (0 to 255), and 1 for a child killed or stopped by a signal and for a
`waitpid` that stored no status. -/
theorem GetResult_first_call (self : SubprocessT) (ChildID : Int) (g : Option Nat) (w : World)
    (hR : self.Result = none) (hC : self.Child = .ChildID ChildID) :
    (∀ (m : WaitMacros) (raw : Int),
      (SubprocessT.GetResult m self ⟨some raw, g⟩ w).value
        = some (if m.WIFEXITED raw = true then m.WEXITSTATUS raw else 1)) ∧
    (∀ c : Nat, c ≤ 255 →
      (SubprocessT.GetResult libc self ⟨some (wstatus (.exited c)), g⟩ w).value
        = some (c : Int)) ∧
    (∀ (sig : Nat) (core : Bool), 1 ≤ sig → sig ≤ 127 →
      (SubprocessT.GetResult libc self ⟨some (wstatus (.signaled sig core)), g⟩ w).value
        = some 1) ∧
    (∀ sig : Nat,
      (SubprocessT.GetResult libc self ⟨some (wstatus (.stopped sig)), g⟩ w).value = some 1) ∧
    (SubprocessT.GetResult libc self ⟨none, g⟩ w).value = some 1 := by
  have gen : ∀ (m : WaitMacros) (raw : Int),
      (SubprocessT.GetResult m self ⟨some raw, g⟩ w).value
        = some (if m.WIFEXITED raw = true then m.WEXITSTATUS raw else 1) := by
    intro m raw
    unfold SubprocessT.GetResult
    rw [hR, hC]
    cases h : m.WIFEXITED raw <;>
      simp [h, ResultOutcome.value, OptionalT.toInt]
  refine ⟨gen, ?_, ?_, ?_, ?_⟩
  · intro c hc
    rw [gen]
    have h1 : libc.WIFEXITED (wstatus (.exited c)) = true := by
      simp only [libc, wstatus, beq_iff_eq]
      omega
    have h2 : libc.WEXITSTATUS (wstatus (.exited c)) = (c : Int) := by
      simp only [libc, wstatus]
      omega
    rw [h1, h2]
    rfl
  · intro sig core h1 h2
    rw [gen]
    have h3 : libc.WIFEXITED (wstatus (.signaled sig core)) = false := by
      cases core <;> simp only [libc, wstatus, beq_eq_false_iff_ne, ne_eq] <;>
        simp <;> omega
    rw [h3]
    rfl
  · intro sig
    rw [gen]
    have h3 : libc.WIFEXITED (wstatus (.stopped sig)) = false := by
      simp only [libc, wstatus, beq_eq_false_iff_ne, ne_eq]
      omega
    rw [h3]
    rfl
  · unfold SubprocessT.GetResult
    rw [hR, hC]
    rfl

/-- C3 on a fresh object: `exit 7` gives 7 and a normal exit with code 0 gives 0. -/
theorem GetResult_first_call_witness :
    (SubprocessT.GetResult libc sample ⟨some (wstatus (.exited 7)), none⟩ stdWorld).value
      = some 7 ∧
    (SubprocessT.GetResult libc sample ⟨some (wstatus (.exited 0)), none⟩ stdWorld).value
      = some 0 ∧
    (SubprocessT.GetResult libc sample ⟨some (wstatus (.signaled 15 false)), none⟩
      stdWorld).value = some 1 :=
  have h := GetResult_first_call sample 42 none stdWorld rfl rfl
  ⟨h.2.1 7 (by decide), h.2.1 0 (by decide), h.2.2.1 15 false (by decide) (by decide)⟩

/-- C4 at its failing input: the child is killed by SIGTERM (raw status 15).  The
first `GetResult` returns 1 and leaves `Result` absent; the second `GetResult`
calls `waitpid` again, so the log holds two wait calls. -/
theorem GetResult_signal_waits_twice :
    (SubprocessT.GetResult libc sample ⟨some (wstatus (.signaled 15 false)), none⟩
      stdWorld).value = some 1 ∧
    (SubprocessT.GetResult libc sample ⟨some (wstatus (.signaled 15 false)), none⟩
      stdWorld).self.Result = none ∧
    waitCount (runCalls libc
      [.GetResult ⟨some (wstatus (.signaled 15 false)), none⟩, .GetResult ⟨none, none⟩]
      sample stdWorld).2.trace = 2 := by
  decide

/-- C5 at its failing input: the first `GetResult` sees a child killed by SIGTERM
and returns 1 without caching; the wait of the second `GetResult` reports a normal
exit with code 7, and the second call returns 7.  The same happens when the first
`waitpid` is interrupted and stores no status. -/
theorem GetResult_twice_differs :
    (SubprocessT.GetResult libc sample ⟨some (wstatus (.signaled 15 false)), none⟩
      stdWorld).value = some 1 ∧
    (SubprocessT.GetResult libc
      (SubprocessT.GetResult libc sample ⟨some (wstatus (.signaled 15 false)), none⟩
        stdWorld).self
      ⟨some (wstatus (.exited 7)), none⟩
      (SubprocessT.GetResult libc sample ⟨some (wstatus (.signaled 15 false)), none⟩
        stdWorld).world).value = some 7 ∧
    (SubprocessT.GetResult libc sample ⟨none, none⟩ stdWorld).value = some 1 ∧
    (SubprocessT.GetResult libc
      (SubprocessT.GetResult libc sample ⟨none, none⟩ stdWorld).self
      ⟨some (wstatus (.exited 7)), none⟩
      (SubprocessT.GetResult libc sample ⟨none, none⟩ stdWorld).world).value = some 7 := by
  decide

end Subprocess
